import Mathlib

/-!
Verification development for the backend-availability resilience layer of the
Veilo client (HTML-response detector, resilient request executor, health
monitor, connection manager, emergency store).

Strings are modelled as `List Char`; JavaScript runtime effects (fetch,
`JSON.parse`, `Date.now`, localStorage) are modelled by explicit parameters
and state passing.  Every definition is translated from the TypeScript
source; definitions whose doc comment says "Modelled from the spec" follow
the specification's wording instead and are used only for comparison.
-/

/-- Character strings, modelled as lists of characters. -/
abbrev Str := List Char

/-- Convert a Lean string literal to the `Str` model. -/
def str (s : String) : Str := s.data

/-- JavaScript whitespace characters relevant to `String.prototype.trim`. -/
def isWS (c : Char) : Bool :=
  c = ' ' || c = '\t' || c = '\n' || c = '\r' ||
  c = Char.ofNat 11 || c = Char.ofNat 12

/-- `a.startsWith b` on strings (prefix test), as in JavaScript. -/
def startsWith : Str → Str → Bool
  | _, [] => true
  | [], _ :: _ => false
  | a :: as, b :: bs => (a == b) && startsWith as bs

/-- `a.includes b` on strings (substring test), as in JavaScript. -/
def containsSub : Str → Str → Bool
  | s, pat =>
    startsWith s pat ||
      match s with
      | [] => false
      | _ :: t => containsSub t pat

/-- Left part of `String.prototype.trim`: drop leading whitespace. -/
def ltrim (s : Str) : Str := s.dropWhile isWS

/-- Right part of `String.prototype.trim`: drop trailing whitespace. -/
def rtrim (s : Str) : Str := (s.reverse.dropWhile isWS).reverse

/-- `String.prototype.trim`: drop leading and trailing whitespace. -/
def trim (s : Str) : Str := rtrim (ltrim s)

/--
`isHTMLResponse` from `src/utils/emergencyApiHandler.ts` (lines 18-23):

  responseText.trim().startsWith('<!DOCTYPE') ||
  responseText.trim().startsWith('<html') ||
  responseText.includes('<title>') ||
  responseText.includes('<body>')
-/
def isHTMLResponse (responseText : Str) : Bool :=
  startsWith (trim responseText) (str "<!DOCTYPE") ||
  startsWith (trim responseText) (str "<html") ||
  containsSub responseText (str "<title>") ||
  containsSub responseText (str "<body>")

/- ### Decimal rendering of naturals (for `Date.now()`-based ids and
`HTTP ${status}` messages). -/

/-- The ASCII character of a decimal digit. -/
def digitChar (d : Nat) : Char := Char.ofNat (48 + d)

/-- Numeric value of an ASCII decimal digit character. -/
def charToDigit (c : Char) : Nat := c.toNat - 48

/-- Decimal rendering with explicit fuel (structural, so that closed values
reduce in the kernel); `fuel > n` always suffices. -/
def natDigitsAux : Nat → Nat → Str
  | 0, _ => []
  | fuel + 1, n =>
    if n < 10 then [digitChar n]
    else natDigitsAux fuel (n / 10) ++ [digitChar (n % 10)]

/-- Decimal rendering of a natural number, most significant digit first. -/
def natDigits (n : Nat) : Str := natDigitsAux (n + 1) n

/-- Value of a digit string, used to invert `natDigits`. -/
def digitsVal (l : Str) : Nat := l.foldl (fun a c => a * 10 + charToDigit c) 0

/- ### JSON values and their minified serialization.

`JSON.parse` itself is modelled as an oracle parameter wherever the code
calls it; the explicit value type below is used to express "syntactically
valid minified JSON object text" as the image of the minifying serializer. -/

mutual

/-- JSON values. -/
inductive JVal where
  | jnull : JVal
  | jbool : Bool → JVal
  | jnum : Int → JVal
  | jstr : Str → JVal
  | jarr : JArr → JVal
  | jobj : JObj → JVal

/-- JSON array contents. -/
inductive JArr where
  | anil : JArr
  | acons : JVal → JArr → JArr

/-- JSON object contents: ordered key/value fields. -/
inductive JObj where
  | onil : JObj
  | ocons : Str → JVal → JObj → JObj

end

/-- The double-quote character. -/
def dquote : Char := Char.ofNat 34

/-- The backslash character. -/
def bslash : Char := Char.ofNat 92

/-- Left and right curly-brace characters. -/
def lbrace : Char := Char.ofNat 123

/-- The right curly-brace character. -/
def rbrace : Char := Char.ofNat 125

/-- JSON string escaping for one character (quote and backslash). -/
def escapeChar (c : Char) : Str :=
  if c = dquote then [bslash, dquote]
  else if c = bslash then [bslash, bslash]
  else [c]

/-- Minified JSON rendering of a string literal. -/
def renderJStr (s : Str) : Str :=
  dquote :: (s.flatMap escapeChar) ++ [dquote]

/-- Minified rendering of an integer. -/
def renderJNum (n : Int) : Str :=
  if n < 0 then '-' :: natDigits n.natAbs else natDigits n.natAbs

/-- A comma when further array elements follow, nothing at the end. -/
def arrSep : JArr → Str
  | .anil => []
  | .acons _ _ => [',']

/-- A comma when further object fields follow, nothing at the end. -/
def objSep : JObj → Str
  | .onil => []
  | .ocons _ _ _ => [',']

mutual

/-- Minified (whitespace-free) serialization of a JSON value, as produced by
`JSON.stringify`. -/
def minify : JVal → Str
  | .jnull => str "null"
  | .jbool true => str "true"
  | .jbool false => str "false"
  | .jnum n => renderJNum n
  | .jstr s => renderJStr s
  | .jarr a => '[' :: minifyArr a ++ [']']
  | .jobj o => lbrace :: minifyObj o ++ [rbrace]
termination_by structural v => v

/-- Comma-separated minified array elements. -/
def minifyArr : JArr → Str
  | .anil => []
  | .acons v rest => minify v ++ arrSep rest ++ minifyArr rest
termination_by structural a => a

/-- Comma-separated minified object fields. -/
def minifyObj : JObj → Str
  | .onil => []
  | .ocons k v rest => renderJStr k ++ ':' :: minify v ++ objSep rest ++ minifyObj rest
termination_by structural o => o

end

/-- JavaScript truthiness of a JSON value (`null`, `false`, `0`, `''` are
falsy; objects and arrays are truthy). -/
def jsTruthy : JVal → Bool
  | .jnull => false
  | .jbool b => b
  | .jnum n => n != 0
  | .jstr s => !s.isEmpty
  | .jarr _ => true
  | .jobj _ => true

/-- Property lookup on a JSON object (`d.k`). -/
def olookup : JObj → Str → Option JVal
  | .onil, _ => none
  | .ocons k v rest, key => if k = key then some v else olookup rest key

/- ### Network outcomes shared by all fetch sites. -/

/-- Outcome of an awaited `fetch`: either a reply carrying the HTTP status,
status text and body text, or a thrown exception (network error, DNS
failure, abort/timeout) carrying its message. -/
inductive FetchOutcome where
  | reply (status : Nat) (statusText : Str) (body : Str)
  | exn (msg : Str)

/-- `Response.ok`: HTTP status in the 2xx range `[200, 300)`. -/
def respOk (status : Nat) : Bool := decide (200 ≤ status) && decide (status < 300)

/-- A `JSON.parse` oracle: `none` models a thrown `SyntaxError`. -/
abbrev ParseOracle := Str → Option JVal

/- ### Backend health service (`backendHealthService.ts`). -/

/-- The three terminal health states. -/
inductive HStatus where
  | healthy
  | degraded
  | down
deriving DecidableEq, BEq

/-- `HealthStatus` record from `backendHealthService.ts` (timestamp being the
probe completion time). -/
structure HealthStatus where
  isHealthy : Bool
  status : HStatus
  latency : Nat
  timestamp : Nat
  error : Option Str
deriving DecidableEq

/-- The inline HTML check performed by `BackendHealthService.checkHealth`:
`responseText.includes('<!DOCTYPE') || responseText.includes('<html>')`. -/
def healthHTMLDetected (responseText : Str) : Bool :=
  containsSub responseText (str "<!DOCTYPE") ||
  containsSub responseText (str "<html>")

/-- `BackendHealthService.checkHealth`, classification of one awaited probe
(`parse` models `JSON.parse`; `latency` and `timestamp` are the measured
elapsed time and completion time). -/
def checkHealth (parse : ParseOracle) (o : FetchOutcome)
    (latency timestamp : Nat) : HealthStatus :=
  match o with
  | .exn msg =>
    { isHealthy := false, status := .down, latency, timestamp, error := some msg }
  | .reply status statusText body =>
    if healthHTMLDetected body then
      { isHealthy := false, status := .down, latency, timestamp
        error := some (str "Backend returning HTML instead of JSON - service misconfigured") }
    else
      match parse body with
      | none =>
        { isHealthy := false, status := .degraded, latency, timestamp
          error := some (str "Invalid JSON response from backend") }
      | some _ =>
        { isHealthy := respOk status
          status := if respOk status then .healthy else .degraded
          latency, timestamp
          error := if respOk status then none
                   else some (str "HTTP " ++ natDigits status ++ str ": " ++ statusText) }

/-- The two toast notifications `updateHealthStatus` can emit. -/
inductive ToastKind where
  | online
  | offline
deriving DecidableEq, BEq

/-- Toast titles used by `updateHealthStatus`. -/
def toastTitle : ToastKind → Str
  | .online => str "Backend Online"
  | .offline => str "Backend Offline"

/-- The toast decision of `BackendHealthService.updateHealthStatus`
(lines 224-249): given the previous stored status (if any) and the new
status, which toast (if any) is shown. -/
def statusChangeToast (previousStatus : Option HStatus) (next : HStatus) :
    Option ToastKind :=
  match previousStatus with
  | none => none
  | some prev =>
    if prev ≠ next then
      if next = .healthy ∧ prev ≠ .healthy then some .online
      else if next = .down ∧ prev ≠ .down then some .offline
      else none
    else none

/-- Run the monitor over a sequence of completed probe statuses, starting
from a given previous stored status, collecting the toasts emitted by
`updateHealthStatus` in order. -/
def monitorRun : Option HStatus → List HStatus → List ToastKind
  | _, [] => []
  | prev, s :: rest => (statusChangeToast prev s).toList ++ monitorRun (some s) rest

/- ### Emergency API handler (`emergencyApiHandler.ts`). -/

/-- `APIFallbackResponse` from `emergencyApiHandler.ts`.  The TypeScript
`isEmergencyMode` field is optional but set on every return path of
`emergencyApiRequest`. -/
structure APIFallbackResponse where
  success : Bool
  data : Option JVal
  error : Option Str
  isEmergencyMode : Bool

/-- `data?.message || data?.error || dflt`: the first truthy string among the
`message` and `error` properties, else the default. -/
def msgOrDefault (d : Option JVal) (dflt : Str) : Str :=
  let field (k : String) : Option Str :=
    match d with
    | some (.jobj o) =>
      match olookup o (str k) with
      | some (.jstr s) => if s.isEmpty then none else some s
      | _ => none
    | _ => none
  ((field "message").or (field "error")).getD dflt

/-- `data?.data || data`: unwrap a `data` envelope property when truthy. -/
def unwrapData (d : JVal) : JVal :=
  match d with
  | .jobj o =>
    match olookup o (str "data") with
    | some v => if jsTruthy v then v else d
    | none => d
  | _ => d

/-- `emergencyApiRequest` from `emergencyApiHandler.ts` (lines 28-102):
classification of one awaited request.  `parse` models `JSON.parse`. -/
def emergencyApiRequest (parse : ParseOracle) (o : FetchOutcome) :
    APIFallbackResponse :=
  match o with
  | .exn msg =>
    { success := false, data := none, error := some msg, isEmergencyMode := true }
  | .reply status _ body =>
    if isHTMLResponse body then
      { success := false, data := none
        error := some (str "Backend server is unavailable - returned HTML instead of JSON")
        isEmergencyMode := true }
    else
      match body with
      | [] =>
        -- empty body: `if (responseText)` skips parsing, data stays null
        if respOk status then
          { success := true, data := none, error := none, isEmergencyMode := false }
        else
          { success := false, data := none
            error := some (msgOrDefault none (str "HTTP " ++ natDigits status))
            isEmergencyMode := false }
      | _ :: _ =>
        match parse body with
        | none =>
          { success := false, data := none
            error := some (str "Invalid response format from server")
            isEmergencyMode := true }
        | some d =>
          if respOk status then
            { success := true, data := some (unwrapData d), error := none
              isEmergencyMode := false }
          else
            { success := false, data := none
              error := some (msgOrDefault (some d) (str "HTTP " ++ natDigits status))
              isEmergencyMode := false }

/- ### Robust API service (`apiService`, unnamed source file). -/

/-- `APIResponse` from the robust API service. -/
structure APIResponse where
  success : Bool
  data : Option JVal
  error : Option Str
  status : Nat
  message : Option Str

/-- `data?.message` when it is a string (used on the success path). -/
def messageField (d : JVal) : Option Str :=
  match d with
  | .jobj o =>
    match olookup o (str "message") with
    | some (.jstr s) => some s
    | _ => none
  | _ => none

/-- `apiRequest` from the robust API service (lines 33-145).  The second
component records whether the emergency handler (`emergencyApiRequest`) was
invoked; `emres` is the result that nested call would produce.  Throws of
`APIError` and the surrounding catch are composed into the returned value:
a non-HTML body makes the catch take the plain-failure branch. -/
def apiRequest (parse : ParseOracle) (emres : APIFallbackResponse)
    (o : FetchOutcome) : APIResponse × Bool :=
  match o with
  | .exn msg =>
    ({ success := false, data := none, error := some msg, status := 0,
       message := none }, false)
  | .reply status _ body =>
    if isHTMLResponse body then
      ({ success := emres.success, data := emres.data, error := emres.error
         status := status, message := none }, true)
    else
      match body with
      | [] =>
        if respOk status then
          ({ success := true, data := none, error := none, status := status
             message := none }, false)
        else
          ({ success := false, data := none
             error := some (msgOrDefault none (str "API request failed"))
             status := status, message := none }, false)
      | _ :: _ =>
        match parse body with
        | none =>
          ({ success := false, data := none
             error := some (str "Invalid JSON response from server")
             status := status, message := none }, false)
        | some d =>
          if respOk status then
            ({ success := true, data := some (unwrapData d), error := none
               status := status, message := messageField d }, false)
          else
            ({ success := false, data := none
               error := some (msgOrDefault (some d) (str "API request failed"))
               status := status, message := none }, false)

/-- The failover condition of `postsService.getAll` / `postsService.create`:
emergency storage is used only when the request failed and its error message
contains `'HTML instead of JSON'`. -/
def postsServiceFallsBack (r : APIResponse) : Bool :=
  !r.success &&
    (match r.error with
     | some e => containsSub e (str "HTML instead of JSON")
     | none => false)

/- ### Backend connection manager (`backendConnectionManager`, unnamed
source file). -/

/-- `ConnectionAttempt` from the connection manager. -/
structure ConnectionAttempt where
  url : Str
  timestamp : Nat
  success : Bool
  latency : Option Nat
  error : Option Str
deriving DecidableEq

/-- Mutable state of `BackendConnectionManager`: the pinned backend URL and
the append-only attempt log. -/
structure MgrState where
  currentBackendUrl : Str
  attempts : List ConnectionAttempt
deriving DecidableEq

/-- The three base-URL fields of the shared `API_CONFIG` object that
`findHealthyBackend` overwrites. -/
structure ApiConfig where
  BASE_URL : Str
  BACKEND_URL : Str
  API_URL : Str
deriving DecidableEq

/-- The hard-coded fallback URL list of `BackendConnectionManager`. -/
def fallbackUrls : List Str :=
  [str "https://veilos-backend.onrender.com",
   str "http://localhost:3001",
   str "http://localhost:3000"]

/-- Title of the toast emitted when every candidate fails. -/
def allBackendsOfflineTitle : Str := str "All Backends Offline"

/-- A probe function: the awaited result of
`testBackendConnection(url)` for each URL (network nondeterminism is
captured by quantifying over it). -/
abbrev Probe := Str → ConnectionAttempt

/-- The candidate loop of `findHealthyBackend`: probe each URL in order,
appending every attempt to the log; on the first success pin the URL,
overwrite the shared config and stop.  Returns the final manager state and,
on success, the pinned URL with the new config. -/
def findGo (probe : Probe) : List Str → MgrState → MgrState × Option (Str × ApiConfig)
  | [], st => (st, none)
  | u :: rest, st =>
    let a := probe u
    let st' : MgrState := { st with attempts := st.attempts ++ [a] }
    if a.success then
      ({ st' with currentBackendUrl := u },
       some (u, { BASE_URL := u, BACKEND_URL := u, API_URL := u }))
    else
      findGo probe rest st'

/-- Result of `findHealthyBackend`: returned URL, new manager state, new
config, and the toasts emitted (by title). -/
structure FindResult where
  url : Str
  state : MgrState
  config : ApiConfig
  toasts : List Str
deriving DecidableEq

/-- `BackendConnectionManager.findHealthyBackend` (lines 43-73): try the
currently pinned URL then the fallback URLs in order; pin the first success
and propagate it to the config; if none succeeds, emit the "All Backends
Offline" toast, keep the pinned URL and return it. -/
def findHealthyBackend (probe : Probe) (st : MgrState) (cfg : ApiConfig) :
    FindResult :=
  match findGo probe (st.currentBackendUrl :: fallbackUrls) st with
  | (st', some (u, cfg')) => { url := u, state := st', config := cfg', toasts := [] }
  | (st', none) =>
    { url := st'.currentBackendUrl, state := st', config := cfg
      toasts := [allBackendsOfflineTitle] }

/- ### Connection statistics (`getConnectionStats`). -/

/-- JavaScript division of two non-negative integers as a rational;
`none` models the `NaN` produced by `0 / 0`. -/
def jsDivNat (a b : Nat) : Option ℚ :=
  if b = 0 then none else some ((a : ℚ) / (b : ℚ))

/-- `x || 0` applied to a possibly-`NaN` number. -/
def orZero (x : Option ℚ) : ℚ :=
  match x with
  | none => 0
  | some q => q

/-- `Math.round`: round half toward positive infinity. -/
def jsRound (q : ℚ) : Int := ⌊q + 1 / 2⌋

/-- Truthiness of `a.success && a.latency`: success with a present, nonzero
latency. -/
def latencyTruthy (a : ConnectionAttempt) : Bool :=
  a.success && (match a.latency with
                | some l => l != 0
                | none => false)

/-- The statistics record returned by `getConnectionStats`. -/
structure ConnStats where
  totalAttempts : Nat
  successful : Nat
  failed : Nat
  successRate : Option ℚ
  averageLatency : Int
  currentBackend : Str
deriving DecidableEq

/-- `BackendConnectionManager.getConnectionStats` (lines 163-178): success
and failure counts, `successful / attempts.length` (NaN on an empty log),
and `Math.round` of `(sum of truthy latencies of successful attempts) /
successful || 0`. -/
def getConnectionStats (attempts : List ConnectionAttempt) (current : Str) :
    ConnStats :=
  let successful := (attempts.filter (fun a => a.success)).length
  let failed := (attempts.filter (fun a => !a.success)).length
  let latSum : Nat :=
    ((attempts.filter latencyTruthy).map (fun a => a.latency.getD 0)).sum
  let avgLatency : ℚ := orZero (jsDivNat latSum successful)
  { totalAttempts := attempts.length
    successful := successful
    failed := failed
    successRate := jsDivNat successful attempts.length
    averageLatency := jsRound avgLatency
    currentBackend := current }

/- ### Heap model for `getConnectionHistory` (array aliasing). -/

/-- A heap of JavaScript arrays of connection attempts, addressed by index;
mutation is modelled by `heapWrite`. -/
abbrev Heap := List (List ConnectionAttempt)

/-- Read the array stored at a reference (empty for a dangling reference). -/
def heapRead (h : Heap) (r : Nat) : List ConnectionAttempt := (h[r]?).getD []

/-- Overwrite the array stored at a reference (covers any in-place mutation
of that array, since the new contents are arbitrary). -/
def heapWrite (h : Heap) (r : Nat) (v : List ConnectionAttempt) : Heap :=
  h.set r v

/-- `BackendConnectionManager.getConnectionHistory` (lines 156-158):
`return [...this.attempts]` — allocate a fresh array holding a copy of the
attempt log and return a reference to it.  `attemptsRef` is the reference
the manager holds to its own log. -/
def getConnectionHistory (h : Heap) (attemptsRef : Nat) : Heap × Nat :=
  (h ++ [heapRead h attemptsRef], h.length)

/- ### Emergency store (`emergencyApiHandler.ts`, local persistence). -/

/-- An offline-created post: `{id, content, createdAt, isEmergencyMode,
status}` with the user-supplied fields abstracted to `content`.  `createdAt`
holds the creation time whose ISO rendering the code stores. -/
structure EmergencyPost where
  id : Str
  content : Str
  createdAt : Nat
  isEmergencyMode : Bool
  status : Str
deriving DecidableEq

/-- The `'emergency_posts'` localStorage slot, holding the parsed list of
posts; `none` models an absent key (`getItem` returning `null`, read back
as `'[]'`). -/
abbrev EmergencySlot := Option (List EmergencyPost)

/-- `emergencyCreatePost` (lines 107-147): read the existing list, build a
post with id `emergency_${Date.now()}`, creation time, emergency flag and
`pending_sync` status, `unshift` it and persist the full list.  `now` is the
`Date.now()` reading of this call. -/
def emergencyCreatePost (now : Nat) (content : Str) (slot : EmergencySlot) :
    EmergencyPost × EmergencySlot :=
  let existingPosts := slot.getD []
  let newPost : EmergencyPost :=
    { id := str "emergency_" ++ natDigits now
      content := content
      createdAt := now
      isEmergencyMode := true
      status := str "pending_sync" }
  (newPost, some (newPost :: existingPosts))

/-- `getEmergencyPosts` (lines 152-159): the persisted list, or `[]` when
the slot is absent. -/
def getEmergencyPosts (slot : EmergencySlot) : List EmergencyPost :=
  slot.getD []

/-- `clearEmergencyPosts` (lines 164-167): remove the slot. -/
def clearEmergencyPosts (_slot : EmergencySlot) : EmergencySlot := none

/-- Modelled from the spec: the health monitor's probe-classification rules
of §4.3, applied in the order they are listed (HTML detection first, then
JSON parsing, then HTTP status; a network exception is down).  "2xx" is
spelled out as `200 ≤ status < 300`. -/
def specProbeStatus (parse : ParseOracle) (o : FetchOutcome) : HStatus :=
  match o with
  | .exn _ => .down
  | .reply status _ body =>
    if healthHTMLDetected body then .down
    else
      match parse body with
      | none => .degraded
      | some _ =>
        if ¬(200 ≤ status ∧ status < 300) then .degraded else .healthy

deriving instance Fintype for HStatus

/-- The attempt log of the claim's example: 3 successes with latencies
10, 20, 30 and 1 failure. -/
def exampleLog : List ConnectionAttempt :=
  [{ url := str "u", timestamp := 0, success := true, latency := some 10, error := none },
   { url := str "u", timestamp := 1, success := true, latency := some 20, error := none },
   { url := str "u", timestamp := 2, success := true, latency := some 30, error := none },
   { url := str "u", timestamp := 3, success := false, latency := none
     error := some (str "Connection failed") }]

/- ### Helper lemmas and claim theorems. -/

theorem charToDigit_digitChar {d : Nat} (h : d < 10) :
    charToDigit (digitChar d) = d := by
  interval_cases d <;> rfl

theorem digitsVal_append_digit (l : Str) (c : Char) :
    digitsVal (l ++ [c]) = digitsVal l * 10 + charToDigit c := by
  simp [digitsVal, List.foldl_append]

theorem digitsVal_natDigitsAux :
    ∀ (fuel n : Nat), n < fuel → digitsVal (natDigitsAux fuel n) = n := by
  intro fuel
  induction fuel with
  | zero => intro n h; omega
  | succ fuel ih =>
    intro n h
    rw [natDigitsAux]
    by_cases h10 : n < 10
    · simp only [h10, if_true]
      simp [digitsVal, charToDigit_digitChar h10]
    · simp only [h10, if_false]
      rw [digitsVal_append_digit, ih (n / 10) (by omega),
        charToDigit_digitChar (Nat.mod_lt _ (by omega))]
      omega

theorem digitsVal_natDigits (n : Nat) : digitsVal (natDigits n) = n :=
  digitsVal_natDigitsAux (n + 1) n (Nat.lt_succ_self n)

theorem natDigits_injective : Function.Injective natDigits := by
  intro m n h
  have := congrArg digitsVal h
  rwa [digitsVal_natDigits, digitsVal_natDigits] at this

/- ### Helper lemmas. -/

theorem dropWhile_append_last {p : Char → Bool} {c : Char} (h : p c = false) :
    ∀ xs : Str, ∃ ys, List.dropWhile p (xs ++ [c]) = ys ++ [c] := by
  intro xs
  induction xs with
  | nil => exact ⟨[], by simp [List.dropWhile_cons, h]⟩
  | cons a as ih =>
    by_cases hp : p a
    · simpa [List.dropWhile_cons, hp] using ih
    · exact ⟨a :: as, by simp [List.dropWhile_cons, hp]⟩

theorem trim_cons_of_not_ws {c : Char} (h : isWS c = false) (rest : Str) :
    ∃ t, trim (c :: rest) = c :: t := by
  unfold trim ltrim rtrim
  rw [List.dropWhile_cons]
  simp only [h, Bool.false_eq_true, if_false]
  obtain ⟨ys, hys⟩ := dropWhile_append_last h rest.reverse
  rw [List.reverse_cons, hys, List.reverse_append]
  exact ⟨ys.reverse, rfl⟩

theorem startsWith_head_ne {a b : Char} (h : (a == b) = false) (as bs : Str) :
    startsWith (a :: as) (b :: bs) = false := by
  simp [startsWith, h]

theorem respOk_iff (s : Nat) : respOk s = true ↔ 200 ≤ s ∧ s < 300 := by
  simp [respOk]

/- ### Claim theorems. -/

/-- C1, counterexample: the claim says `isHTMLResponse` returns `false` on
every syntactically valid minified JSON object, but the minified JSON object
with the single field `a` mapped to the string `<title>` (a valid minified
JSON object, being the output of the minifying serializer) makes
`isHTMLResponse` return `true`, because the text contains the substring
`<title>`. -/
theorem isHTMLResponse_true_on_json_counterexample :
    isHTMLResponse (minify (.jobj (.ocons (str "a") (.jstr (str "<title>")) .onil))) =
      true := by
  decide

/-- C1 (amended): every string whose trimmed text starts with `<!DOCTYPE`
makes `isHTMLResponse` return `true`; and every syntactically valid minified
JSON object text that does not contain the substrings `<title>` or `<body>`
makes it return `false`. -/
theorem isHTMLResponse_doctype_and_json :
    (∀ s : Str, startsWith (trim s) (str "<!DOCTYPE") = true →
      isHTMLResponse s = true) ∧
    (∀ o : JObj, containsSub (minify (.jobj o)) (str "<title>") = false →
      containsSub (minify (.jobj o)) (str "<body>") = false →
      isHTMLResponse (minify (.jobj o)) = false) := by
  constructor
  · intro s h
    simp [isHTMLResponse, h]
  · intro o ht hb
    have hm : minify (.jobj o) = lbrace :: (minifyObj o ++ [rbrace]) := by
      simp [minify]
    obtain ⟨t, htr⟩ := trim_cons_of_not_ws (c := lbrace) (by decide)
      (minifyObj o ++ [rbrace])
    have h1 : startsWith (trim (minify (.jobj o))) (str "<!DOCTYPE") = false := by
      rw [hm, htr, show str "<!DOCTYPE" = '<' :: str "!DOCTYPE" from rfl]
      exact startsWith_head_ne (by decide) _ _
    have h2 : startsWith (trim (minify (.jobj o))) (str "<html") = false := by
      rw [hm, htr, show str "<html" = '<' :: str "html" from rfl]
      exact startsWith_head_ne (by decide) _ _
    simp [isHTMLResponse, h1, h2, ht, hb]

/-- Witness for C1 (amended): `<!DOCTYPE html>` is detected as HTML, and the
minified JSON object text with the single numeric field `a` is not. -/
theorem isHTMLResponse_doctype_and_json_witness :
    isHTMLResponse (str "<!DOCTYPE html>") = true ∧
    isHTMLResponse (minify (.jobj (.ocons (str "a") (.jnum 1) .onil))) = false :=
  ⟨isHTMLResponse_doctype_and_json.1 (str "<!DOCTYPE html>") (by decide),
   isHTMLResponse_doctype_and_json.2 (.ocons (str "a") (.jnum 1) .onil)
     (by decide) (by decide)⟩

/-- C2: for every completed probe, `checkHealth` records exactly the status
the claim's rules prescribe: HTML body detected ⇒ down; body failing JSON
parsing ⇒ degraded; valid JSON with non-2xx status ⇒ degraded; valid JSON
with 2xx status ⇒ healthy; network exception (including timeout) ⇒ down.
The rules apply in their listed order, the health probe's HTML detection
being its inline `includes('<!DOCTYPE') || includes('<html>')` check. -/
theorem checkHealth_status_spec (parse : ParseOracle) (o : FetchOutcome)
    (latency timestamp : Nat) :
    (checkHealth parse o latency timestamp).status = specProbeStatus parse o := by
  cases o with
  | exn msg => rfl
  | reply status stext body =>
    simp only [checkHealth, specProbeStatus]
    by_cases hH : healthHTMLDetected body
    · simp [hH]
    · simp only [hH, Bool.false_eq_true, if_false]
      cases hp : parse body with
      | none => simp
      | some d =>
        by_cases hok : respOk status
        · have := (respOk_iff status).mp hok
          simp [hok, this]
        · have hlt : ¬(200 ≤ status ∧ status < 300) := fun hc =>
            hok ((respOk_iff status).mpr hc)
          simp [hok, hlt]

/-- Witness for C2 at a concrete probe: a 200 reply whose body parses as
JSON is recorded as healthy. -/
theorem checkHealth_status_spec_witness :
    (checkHealth (fun _ => some .jnull) (.reply 200 (str "OK") (str "ok-json")) 5 0).status =
      specProbeStatus (fun _ => some .jnull) (.reply 200 (str "OK") (str "ok-json")) :=
  checkHealth_status_spec (fun _ => some .jnull) (.reply 200 (str "OK") (str "ok-json")) 5 0

/-- C3, counterexample: the claim says a non-HTML body that fails JSON
parsing yields a failure "not marked as emergency/backend-down", but
`emergencyApiRequest` (one of the two request executors the claim cites)
marks exactly this failure with `isEmergencyMode: true`: on a 200 reply with
the non-HTML, unparsable body `oops` it returns `success: false` with the
emergency flag set. -/
theorem emergencyApiRequest_marks_malformed_as_emergency :
    isHTMLResponse (str "oops") = false ∧
    (emergencyApiRequest (fun _ => none) (.reply 200 (str "OK") (str "oops"))).success =
      false ∧
    (emergencyApiRequest (fun _ => none) (.reply 200 (str "OK") (str "oops"))).isEmergencyMode =
      true := by
  refine ⟨by decide, ?_, ?_⟩ <;> rfl

/-- C3 (amended): for every response whose body is nonempty, not detected as
HTML, and fails JSON parsing, `apiRequest` returns the distinct malformed
response failure `Invalid JSON response from server` without invoking the
emergency handler, and that failure does not trigger the posts-service
failover to emergency storage (which requires the error to contain
`HTML instead of JSON`); `emergencyApiRequest`, however, does mark its
corresponding failure with `isEmergencyMode: true`. -/
theorem apiRequest_malformed_is_distinct (parse : ParseOracle)
    (emres : APIFallbackResponse) (status : Nat) (stext body : Str)
    (hH : isHTMLResponse body = false) (hne : body ≠ [])
    (hp : parse body = none) :
    (apiRequest parse emres (.reply status stext body)).2 = false ∧
    (apiRequest parse emres (.reply status stext body)).1.success = false ∧
    (apiRequest parse emres (.reply status stext body)).1.error =
      some (str "Invalid JSON response from server") ∧
    (apiRequest parse emres (.reply status stext body)).1.status = status ∧
    postsServiceFallsBack (apiRequest parse emres (.reply status stext body)).1 =
      false ∧
    (emergencyApiRequest parse (.reply status stext body)).isEmergencyMode = true := by
  cases body with
  | nil => exact absurd rfl hne
  | cons c cs =>
    have hapi : apiRequest parse emres (.reply status stext (c :: cs)) =
        ({ success := false, data := none
           error := some (str "Invalid JSON response from server")
           status := status, message := none }, false) := by
      simp [apiRequest, hH, hp]
    have hem : emergencyApiRequest parse (.reply status stext (c :: cs)) =
        { success := false, data := none
          error := some (str "Invalid response format from server")
          isEmergencyMode := true } := by
      simp [emergencyApiRequest, hH, hp]
    refine ⟨by rw [hapi], by rw [hapi], by rw [hapi], by rw [hapi], ?_, by rw [hem]⟩
    rw [hapi]
    simp only [postsServiceFallsBack]
    decide

/-- Witness for C3 (amended) at a concrete malformed response. -/
theorem apiRequest_malformed_is_distinct_witness :
    (apiRequest (fun _ => none) ⟨false, none, none, false⟩
      (.reply 200 (str "OK") (str "no"))).2 = false ∧
    (apiRequest (fun _ => none) ⟨false, none, none, false⟩
      (.reply 200 (str "OK") (str "no"))).1.success = false ∧
    (apiRequest (fun _ => none) ⟨false, none, none, false⟩
      (.reply 200 (str "OK") (str "no"))).1.error =
      some (str "Invalid JSON response from server") ∧
    (apiRequest (fun _ => none) ⟨false, none, none, false⟩
      (.reply 200 (str "OK") (str "no"))).1.status = 200 ∧
    postsServiceFallsBack (apiRequest (fun _ => none) ⟨false, none, none, false⟩
      (.reply 200 (str "OK") (str "no"))).1 = false ∧
    (emergencyApiRequest (fun _ => none)
      (.reply 200 (str "OK") (str "no"))).isEmergencyMode = true :=
  apiRequest_malformed_is_distinct (fun _ => none) ⟨false, none, none, false⟩
    200 (str "OK") (str "no") (by decide) (by decide) rfl

/-- C4, counterexample: the claim says a toast fires only on transitions
between healthy and a non-healthy state, but the monitor fires the
"Backend Offline" toast on the transition degraded → down, where neither
endpoint is healthy. -/
theorem statusChangeToast_degraded_down_counterexample :
    statusChangeToast (some .degraded) .down = some .offline ∧
    HStatus.degraded ≠ .healthy ∧ HStatus.down ≠ .healthy := by
  decide

/-- C4 (amended): a status-change toast fires only when a previous status
existed and the status changed into healthy or into down; in particular no
toast fires on the very first probe and none on a change into degraded. -/
theorem statusChangeToast_only_into_healthy_or_down
    (prev : Option HStatus) (next : HStatus)
    (h : (statusChangeToast prev next).isSome = true) :
    ∃ p, prev = some p ∧ p ≠ next ∧ (next = .healthy ∨ next = .down) := by
  revert prev next h
  decide

/-- Witness for C4 (amended): the down → healthy transition fires a toast
and satisfies the amended rule. -/
theorem statusChangeToast_only_into_healthy_or_down_witness :
    ∃ p, (some HStatus.down) = some p ∧ p ≠ .healthy ∧
      (HStatus.healthy = .healthy ∨ HStatus.healthy = .down) :=
  statusChangeToast_only_into_healthy_or_down (some .down) .healthy (by decide)

/-- C5, counterexample: over the probe sequence healthy, degraded, down,
healthy from the unknown initial state, the claim predicts exactly 2
notifications into non-healthy, but the monitor emits only 1 (the
healthy → degraded change fires nothing, only degraded → down fires the
offline toast). -/
theorem monitorRun_sequence_counterexample :
    (monitorRun none [.healthy, .degraded, .down, .healthy]).count .offline ≠ 2 := by
  decide

/-- C5 (amended): over the probe sequence healthy, degraded, down, healthy
from the unknown initial state, the monitor emits exactly 1 notification
into non-healthy (on degraded → down) and exactly 1 into healthy (on
down → healthy) — the full emission sequence is [offline, online]. -/
theorem monitorRun_sequence_counts :
    monitorRun none [.healthy, .degraded, .down, .healthy] = [.offline, .online] ∧
    (monitorRun none [.healthy, .degraded, .down, .healthy]).count .offline = 1 ∧
    (monitorRun none [.healthy, .degraded, .down, .healthy]).count .online = 1 := by
  decide

theorem findGo_first_success (probe : Probe) :
    ∀ (pre : List Str) (u : Str) (rest : List Str) (st : MgrState),
      (∀ v ∈ pre, (probe v).success = false) →
      (probe u).success = true →
      findGo probe (pre ++ u :: rest) st =
        ({ currentBackendUrl := u
           attempts := st.attempts ++ (pre ++ [u]).map probe },
         some (u, { BASE_URL := u, BACKEND_URL := u, API_URL := u })) := by
  intro pre
  induction pre with
  | nil =>
    intro u rest st _ hu
    simp [findGo, hu]
  | cons v vs ih =>
    intro u rest st hpre hu
    have hv : (probe v).success = false := hpre v (by simp)
    rw [List.cons_append]
    simp only [findGo, hv, Bool.false_eq_true, if_false]
    rw [ih u rest _ (fun w hw => hpre w (by simp [hw])) hu]
    simp [List.append_assoc]

theorem findGo_all_fail (probe : Probe) :
    ∀ (urls : List Str) (st : MgrState),
      (∀ v ∈ urls, (probe v).success = false) →
      findGo probe urls st =
        ({ st with attempts := st.attempts ++ urls.map probe }, none) := by
  intro urls
  induction urls with
  | nil => intro st _; simp [findGo]
  | cons u us ih =>
    intro st h
    have hu : (probe u).success = false := h u (by simp)
    simp only [findGo, hu, Bool.false_eq_true, if_false]
    rw [ih _ (fun w hw => h w (by simp [hw]))]
    simp [List.append_assoc]

/-- C6: `findHealthyBackend` probes the candidates (the pinned URL, then the
fallback URLs in declared order) in order; when every candidate before `u`
fails and `u`'s probe succeeds, it pins `u`, sets every base-URL field of
the shared config to `u`, records attempts exactly for the candidates up to
and including `u` (so no later candidate is ever probed), and emits no
toast. -/
theorem findHealthyBackend_first_success (probe : Probe) (st : MgrState)
    (cfg : ApiConfig) (pre : List Str) (u : Str) (rest : List Str)
    (hsplit : st.currentBackendUrl :: fallbackUrls = pre ++ u :: rest)
    (hpre : ∀ v ∈ pre, (probe v).success = false)
    (hu : (probe u).success = true) :
    findHealthyBackend probe st cfg =
      { url := u
        state := { currentBackendUrl := u
                   attempts := st.attempts ++ (pre ++ [u]).map probe }
        config := { BASE_URL := u, BACKEND_URL := u, API_URL := u }
        toasts := [] } := by
  unfold findHealthyBackend
  rw [hsplit, findGo_first_success probe pre u rest st hpre hu]

/-- Witness for C6: with the pinned URL failing and the first fallback
(`https://veilos-backend.onrender.com`) succeeding, that fallback is pinned
and the two localhost candidates are never probed. -/
theorem findHealthyBackend_first_success_witness :
    findHealthyBackend
      (fun v => { url := v, timestamp := 0
                  success := v == str "https://veilos-backend.onrender.com"
                  latency := some 5, error := none })
      { currentBackendUrl := str "http://primary.example", attempts := [] }
      { BASE_URL := str "p", BACKEND_URL := str "p", API_URL := str "p" } =
      { url := str "https://veilos-backend.onrender.com"
        state := { currentBackendUrl := str "https://veilos-backend.onrender.com"
                   attempts := [] ++
                     ([str "http://primary.example"] ++
                       [str "https://veilos-backend.onrender.com"]).map
                       (fun v => { url := v, timestamp := 0
                                   success := v == str "https://veilos-backend.onrender.com"
                                   latency := some 5, error := none }) }
        config := { BASE_URL := str "https://veilos-backend.onrender.com"
                    BACKEND_URL := str "https://veilos-backend.onrender.com"
                    API_URL := str "https://veilos-backend.onrender.com" }
        toasts := [] } :=
  findHealthyBackend_first_success _ _ _
    [str "http://primary.example"] (str "https://veilos-backend.onrender.com")
    [str "http://localhost:3001", str "http://localhost:3000"]
    rfl (by decide) (by decide)

/-- C7: when every candidate's probe fails, `findHealthyBackend` emits
exactly the one "All Backends Offline" toast (whose wording differs from the
single-backend "Backend Offline" toast), leaves the pinned URL and the
shared config unchanged, and returns the previously pinned URL. -/
theorem findHealthyBackend_all_fail (probe : Probe) (st : MgrState)
    (cfg : ApiConfig)
    (hall : ∀ v ∈ st.currentBackendUrl :: fallbackUrls,
      (probe v).success = false) :
    (findHealthyBackend probe st cfg).toasts = [allBackendsOfflineTitle] ∧
    (findHealthyBackend probe st cfg).state.currentBackendUrl =
      st.currentBackendUrl ∧
    (findHealthyBackend probe st cfg).url = st.currentBackendUrl ∧
    (findHealthyBackend probe st cfg).config = cfg ∧
    allBackendsOfflineTitle ≠ toastTitle .offline := by
  have hgo := findGo_all_fail probe (st.currentBackendUrl :: fallbackUrls) st hall
  unfold findHealthyBackend
  rw [hgo]
  exact ⟨rfl, rfl, rfl, rfl, by decide⟩

/-- Witness for C7: with every probe failing, the previously pinned URL is
kept and the "All Backends Offline" toast fires once. -/
theorem findHealthyBackend_all_fail_witness :
    (findHealthyBackend
      (fun v => { url := v, timestamp := 0, success := false
                  latency := none, error := some (str "Connection failed") })
      { currentBackendUrl := str "http://primary.example", attempts := [] }
      { BASE_URL := str "p", BACKEND_URL := str "p", API_URL := str "p" }).toasts =
      [allBackendsOfflineTitle] ∧
    (findHealthyBackend
      (fun v => { url := v, timestamp := 0, success := false
                  latency := none, error := some (str "Connection failed") })
      { currentBackendUrl := str "http://primary.example", attempts := [] }
      { BASE_URL := str "p", BACKEND_URL := str "p", API_URL := str "p" }).state.currentBackendUrl =
      str "http://primary.example" ∧
    (findHealthyBackend
      (fun v => { url := v, timestamp := 0, success := false
                  latency := none, error := some (str "Connection failed") })
      { currentBackendUrl := str "http://primary.example", attempts := [] }
      { BASE_URL := str "p", BACKEND_URL := str "p", API_URL := str "p" }).url =
      str "http://primary.example" ∧
    (findHealthyBackend
      (fun v => { url := v, timestamp := 0, success := false
                  latency := none, error := some (str "Connection failed") })
      { currentBackendUrl := str "http://primary.example", attempts := [] }
      { BASE_URL := str "p", BACKEND_URL := str "p", API_URL := str "p" }).config =
      { BASE_URL := str "p", BACKEND_URL := str "p", API_URL := str "p" } ∧
    allBackendsOfflineTitle ≠ toastTitle .offline :=
  findHealthyBackend_all_fail _ _ _ (by decide)

/-- C8, counterexample: the claim says `successRate = 0` when the attempt
log is empty, but the code computes `successful / attempts.length = 0 / 0`,
which is `NaN`, not `0`. -/
theorem getConnectionStats_empty_counterexample :
    (getConnectionStats [] (str "b")).successRate = none ∧
    (none : Option ℚ) ≠ some 0 := by
  exact ⟨rfl, by decide⟩

/-- C8 (amended): on a nonempty log the success rate is
`successes / total`; on the empty log it is `NaN` (no value).  The average
latency is `0` when there are no successful attempts, and otherwise — for
logs whose successful attempts all carry a nonzero recorded latency — it is
`Math.round` of the mean latency over the successful attempts.  On the
example log of 3 successes (latencies 10, 20, 30) and 1 failure it reports
`successRate = 0.75` and `averageLatency = 20`. -/
theorem getConnectionStats_spec (attempts : List ConnectionAttempt) (cur : Str)
    (hlat : ∀ a ∈ attempts, a.success = true → latencyTruthy a = true)
    (hne : attempts ≠ []) :
    (getConnectionStats attempts cur).successRate =
      some (((attempts.filter (fun a => a.success)).length : ℚ) /
        (attempts.length : ℚ)) ∧
    ((attempts.filter (fun a => a.success)).length = 0 →
      (getConnectionStats attempts cur).averageLatency = 0) ∧
    ((attempts.filter (fun a => a.success)).length ≠ 0 →
      (getConnectionStats attempts cur).averageLatency =
        jsRound (((((attempts.filter (fun a => a.success)).map
            (fun a => a.latency.getD 0)).sum : Nat) : ℚ) /
          (((attempts.filter (fun a => a.success)).length : Nat) : ℚ))) ∧
    (getConnectionStats [] (str "b")).successRate = none ∧
    (getConnectionStats exampleLog (str "b")).successRate = some (3 / 4) ∧
    (getConnectionStats exampleLog (str "b")).averageLatency = 20 := by
  have hfilter : attempts.filter latencyTruthy =
      attempts.filter (fun a => a.success) := by
    apply List.filter_congr
    intro a ha
    cases hs : a.success with
    | true => rw [hlat a ha hs]
    | false => simp [latencyTruthy, hs]
  have hlen : attempts.length ≠ 0 := by
    intro h0
    exact hne (List.length_eq_zero.mp h0)
  refine ⟨?_, ?_, ?_, rfl, ?_, ?_⟩
  · simp [getConnectionStats, jsDivNat, hlen]
  · intro h0
    norm_num [getConnectionStats, jsDivNat, h0, orZero, jsRound]
  · intro h0
    simp only [getConnectionStats, hfilter, jsDivNat, h0, if_false, orZero]
  · norm_num [getConnectionStats, exampleLog, jsDivNat]
  · norm_num [getConnectionStats, exampleLog, jsDivNat, latencyTruthy, orZero,
      jsRound]

/-- Witness for C8 (amended), instantiated at the example log. -/
theorem getConnectionStats_spec_witness :
    (getConnectionStats exampleLog (str "b")).successRate =
      some (((exampleLog.filter (fun a => a.success)).length : ℚ) /
        (exampleLog.length : ℚ)) ∧
    (getConnectionStats exampleLog (str "b")).successRate = some (3 / 4) ∧
    (getConnectionStats exampleLog (str "b")).averageLatency = 20 :=
  ⟨(getConnectionStats_spec exampleLog (str "b") (by decide) (by decide)).1,
   (getConnectionStats_spec exampleLog (str "b") (by decide) (by decide)).2.2.2.2.1,
   (getConnectionStats_spec exampleLog (str "b") (by decide) (by decide)).2.2.2.2.2⟩

/-- C9, counterexample: two posts created in sequence within the same
`Date.now()` millisecond (both readings 0) receive the same id
`emergency_0`, so creation does not always produce distinct ids. -/
theorem emergencyCreatePost_same_millisecond_counterexample :
    ((emergencyCreatePost 0 (str "first") none).1).id =
      ((emergencyCreatePost 0 (str "second")
        (emergencyCreatePost 0 (str "first") none).2).1).id := by
  rfl

/-- C9 (amended): two offline posts created in sequence whose `Date.now()`
readings differ receive distinct ids, and `getEmergencyPosts` then returns
both in most-recent-first order (the second-created post first), ahead of
whatever the store already held. -/
theorem emergencyCreatePost_distinct_ids (t1 t2 : Nat) (c1 c2 : Str)
    (slot : EmergencySlot) (hne : t1 ≠ t2) :
    (emergencyCreatePost t1 c1 slot).1.id ≠
      (emergencyCreatePost t2 c2 (emergencyCreatePost t1 c1 slot).2).1.id ∧
    getEmergencyPosts (emergencyCreatePost t2 c2
        (emergencyCreatePost t1 c1 slot).2).2 =
      (emergencyCreatePost t2 c2 (emergencyCreatePost t1 c1 slot).2).1 ::
        (emergencyCreatePost t1 c1 slot).1 :: getEmergencyPosts slot := by
  constructor
  · intro he
    have hids : str "emergency_" ++ natDigits t1 =
        str "emergency_" ++ natDigits t2 := by
      simpa [emergencyCreatePost] using he
    exact hne (natDigits_injective (List.append_cancel_left hids))
  · simp [emergencyCreatePost, getEmergencyPosts]

/-- Witness for C9 (amended) at times 0 and 1. -/
theorem emergencyCreatePost_distinct_ids_witness :
    (emergencyCreatePost 0 (str "a") none).1.id ≠
      (emergencyCreatePost 1 (str "b") (emergencyCreatePost 0 (str "a") none).2).1.id ∧
    getEmergencyPosts (emergencyCreatePost 1 (str "b")
        (emergencyCreatePost 0 (str "a") none).2).2 =
      (emergencyCreatePost 1 (str "b") (emergencyCreatePost 0 (str "a") none).2).1 ::
        (emergencyCreatePost 0 (str "a") none).1 :: getEmergencyPosts none :=
  emergencyCreatePost_distinct_ids 0 1 (str "a") (str "b") none (by decide)

/-- C10: `getConnectionHistory` returns a reference to a fresh copy of the
attempt log: the copy's contents equal the log, and any mutation through the
returned reference leaves the manager's own log — and hence the result of a
subsequent `getConnectionHistory`-read or `getConnectionStats` — unchanged. -/
theorem getConnectionHistory_returns_copy (h : Heap) (attemptsRef : Nat)
    (v : List ConnectionAttempt) (cur : Str) (href : attemptsRef < h.length) :
    heapRead (getConnectionHistory h attemptsRef).1
        (getConnectionHistory h attemptsRef).2 =
      heapRead h attemptsRef ∧
    heapRead (heapWrite (getConnectionHistory h attemptsRef).1
        (getConnectionHistory h attemptsRef).2 v) attemptsRef =
      heapRead h attemptsRef ∧
    getConnectionStats (heapRead (heapWrite (getConnectionHistory h attemptsRef).1
        (getConnectionHistory h attemptsRef).2 v) attemptsRef) cur =
      getConnectionStats (heapRead h attemptsRef) cur := by
  have hcopy : (getConnectionHistory h attemptsRef).2 = h.length := rfl
  have hheap : (getConnectionHistory h attemptsRef).1 =
      h ++ [heapRead h attemptsRef] := rfl
  have hwrite : heapRead (heapWrite (getConnectionHistory h attemptsRef).1
      (getConnectionHistory h attemptsRef).2 v) attemptsRef =
      heapRead h attemptsRef := by
    rw [hheap, hcopy]
    simp only [heapRead, heapWrite]
    rw [List.getElem?_set_ne (by omega), List.getElem?_append_left href]
  refine ⟨?_, hwrite, by rw [hwrite]⟩
  rw [hheap, hcopy]
  simp [heapRead, List.getElem?_concat_length]

/-- Witness for C10 at a one-array heap: overwriting the returned copy with
the empty array leaves the manager's log unchanged. -/
theorem getConnectionHistory_returns_copy_witness :
    heapRead (getConnectionHistory ([[⟨str "u", 0, true, some 1, none⟩]] : Heap) 0).1
        (getConnectionHistory ([[⟨str "u", 0, true, some 1, none⟩]] : Heap) 0).2 =
      heapRead ([[⟨str "u", 0, true, some 1, none⟩]] : Heap) 0 ∧
    heapRead (heapWrite (getConnectionHistory ([[⟨str "u", 0, true, some 1, none⟩]] : Heap) 0).1
        (getConnectionHistory ([[⟨str "u", 0, true, some 1, none⟩]] : Heap) 0).2 []) 0 =
      heapRead ([[⟨str "u", 0, true, some 1, none⟩]] : Heap) 0 ∧
    getConnectionStats (heapRead (heapWrite
        (getConnectionHistory ([[⟨str "u", 0, true, some 1, none⟩]] : Heap) 0).1
        (getConnectionHistory ([[⟨str "u", 0, true, some 1, none⟩]] : Heap) 0).2 []) 0)
        (str "u") =
      getConnectionStats (heapRead ([[⟨str "u", 0, true, some 1, none⟩]] : Heap) 0) (str "u") :=
  getConnectionHistory_returns_copy
    ([[⟨str "u", 0, true, some 1, none⟩]] : Heap) 0 [] (str "u") (by decide)
